import Mathlib

/-!
Shallow embedding of `src/appservice/src/deploy/runPreDeployTask.ts`.

Paths are modelled as normalized lists of path segments.  A `vscode.Task`'s
reference identity is modelled by an `id` field.  The asynchronous wait on the
`onDidEndTaskProcess` stream is modelled as a function over the (ordered) list
of completion events that arrive after the task is launched: it returns the
result of the first event that resolves the promise, or `none` if no event
ever resolves it.  Side effects (fetching tasks, executing a task, writing the
output-channel log line) are recorded explicitly in the outcome structures.
-/

/-- Modelled from the spec: `ScmType.LocalGit` from `src/appservice/src/ScmType.ts`,
which is not among the sources; the spec recognizes two server-side-build modes. -/
def ScmType.LocalGit : String := "LocalGit"

/-- Modelled from the spec: `ScmType.GitHub`, the second server-side-build mode. -/
def ScmType.GitHub : String := "GitHub"

/-- A filesystem path as a normalized list of path segments. -/
abbrev FsPath := List String

/-- Modelled from the spec: `isPathEqual` from `src/appservice/src/utils/pathUtils.ts`
(not among the sources) — equality after path normalization. -/
def isPathEqual (a b : FsPath) : Bool := a == b

/-- Modelled from the spec: `isSubpath` from `src/appservice/src/utils/pathUtils.ts`
(not among the sources) — a proper ancestor relationship on path-segment
boundaries, not substring matching. -/
def isSubpath (parent child : FsPath) : Bool :=
  parent != child && List.isPrefixOf parent child

/-- A workspace folder as seen through `Partial<vscode.WorkspaceFolder>`: the
`uri` property may be absent; when present it carries an `fsPath`. -/
structure WorkspaceFolder where
  uri : Option FsPath
deriving DecidableEq, Repr

/-- The `scope` of a `vscode.Task` when defined: either a numeric `TaskScope`
value (not an object, and with no `uri` property) or a workspace-folder object. -/
inductive TaskScopeVal
  | global
  | folder (wf : WorkspaceFolder)
deriving DecidableEq, Repr

/-- A `vscode.Task`.  The `id` field stands for the object's reference identity,
used by `e.execution.task === preDeployTask`. -/
structure VTask where
  id : Nat
  name : String
  scope : Option TaskScopeVal
deriving DecidableEq, Repr

/-- `IPreDeployTaskResult` from the source. -/
structure IPreDeployTaskResult where
  taskName : Option String
  exitCode : Option Int
  failedToFindTask : Bool
deriving DecidableEq, Repr

/-- A `vscode.TaskProcessEndEvent`: the task whose process ended and its exit
code (`undefined` when the process ended without one). -/
structure TaskProcessEndEvent where
  task : VTask
  exitCode : Option Int
deriving DecidableEq, Repr

/-- JavaScript `String.prototype.toLowerCase`, character by character. -/
def jsToLowerCase (s : String) : String := String.mk (s.data.map Char.toLower)

/-- `isTaskEqual` from the source: case-insensitive name equality, a defined
scope, and the scope's uri path equal to or an ancestor of the expected path.
A numeric scope has no `uri` property, so the `!!workspaceFolder.uri` check
fails for it. -/
def isTaskEqual (expectedName : String) (expectedPath : FsPath) (actualTask : VTask) : Bool :=
  if jsToLowerCase expectedName == jsToLowerCase actualTask.name && actualTask.scope.isSome then
    match actualTask.scope with
    | some (TaskScopeVal.folder wf) =>
      match wf.uri with
      | some p => isPathEqual p expectedPath || isSubpath p expectedPath
      | none => false
    | _ => false
  else
    false

/-- `isScopeEqual` from the source: `typeof task.scope === 'object'` holds only
for a workspace-folder scope (numeric scopes and `undefined` are not objects),
then the uri path must equal or be an ancestor of the workspace path. -/
def isScopeEqual (task : VTask) (workspaceFsPath : FsPath) : Bool :=
  match task.scope with
  | some (TaskScopeVal.folder wf) =>
    match wf.uri with
    | some p => isPathEqual p workspaceFsPath || isSubpath p workspaceFsPath
    | none => false
  | _ => false

/-- `waitForPreDeployTask` from the source, over the ordered stream of
completion events.  The first event satisfying a resolving condition produces
the promise's value; the listener is disposed at that point, so later events
are never examined.  `none` means no event ever resolved the wait. -/
def waitForPreDeployTask (preDeployTask : VTask) (deployFsPath : FsPath) :
    List TaskProcessEndEvent → Option IPreDeployTaskResult
  | [] => none
  | e :: rest =>
    if isScopeEqual e.task deployFsPath && e.exitCode != some 0 then
      some ⟨some e.task.name, e.exitCode, false⟩
    else if e.task = preDeployTask then
      some ⟨some e.task.name, e.exitCode, false⟩
    else
      waitForPreDeployTask preDeployTask deployFsPath rest

/-- Helper for `taskNameWithoutSource`: the effect of the regex
`/^[^:]*:\s*/` on the character list — if a colon occurs, drop everything
through the first colon and the whitespace that follows it; otherwise the
regex does not match. -/
def dropSourceSegment : List Char → Option (List Char)
  | [] => none
  | c :: cs =>
    if c = ':' then some (cs.dropWhile Char.isWhitespace)
    else dropSourceSegment cs

/-- `taskName.replace(/^[^:]*:\s*/, '')` from the source: the task name with
any leading `"<source>: "`-style segment removed. -/
def taskNameWithoutSource (s : String) : String :=
  match dropSourceSegment s.data with
  | some cs => String.mk cs
  | none => s

/-- JavaScript truthiness of a `string | undefined` value: `undefined` and the
empty string are falsy. -/
def truthy : Option String → Bool
  | none => false
  | some s => s != ""

/-- The localized `ignoringPreDeployTask` log line with its placeholder filled. -/
def ignoringPreDeployTaskMessage (taskName : String) : String :=
  "WARNING: Ignoring preDeployTask \"" ++ taskName ++ "\" for non-zip deploy."

/-- JavaScript string interpolation of a `string | undefined` value. -/
def interpolate : Option String → String
  | none => "undefined"
  | some s => s

/-- The error message thrown by `runPreDeployTask` when the task is not found,
naming the missing task and the `<prefix>.preDeployTask` configuration key. -/
def failedToFindTaskMessage (extPrefix : String) (taskName : Option String) : String :=
  "Failed to find pre-deploy task \"" ++ interpolate taskName ++
    "\". Modify your tasks or the setting \"" ++ extPrefix ++ ".preDeployTask\"."

/-- The environment a single deploy invocation runs against: the extension
prefix `ext.prefix`, the configured `preDeployTask` setting value at the deploy
path, the scm type, the deploy path, the tasks returned by
`vscode.tasks.fetchTasks()`, the completion events that arrive after a task is
launched, and the button the operator picks if the failure dialog is shown
(`none` = dialog dismissed or never shown). -/
structure Env where
  extPrefix : String
  config : Option String
  scmType : Option String
  deployFsPath : FsPath
  tasks : List VTask
  events : List TaskProcessEndEvent
  promptChoice : Option Bool
deriving DecidableEq, Repr

/-- Outcome of `tryRunPreDeployTask`: the returned result (`none` when the
wait never resolves, i.e. the promise stays pending), whether
`vscode.tasks.fetchTasks()` was called, which task `vscode.tasks.executeTask`
was called with, and the log line appended to the output channel. -/
structure TryRunOutcome where
  result : Option IPreDeployTaskResult
  fetchedTasks : Bool
  executedTask : Option VTask
  logLine : Option String
deriving DecidableEq, Repr

/-- The task lookup of `tryRunPreDeployTask`:
`tasks.find(t => isTaskEqual(taskName, ...)) || tasks.find(t => isTaskEqual(taskNameWithoutSource, ...))` —
first an exact (case-insensitive) match, then a match against the configured
name with its `"<source>: "` segment stripped. -/
def findPreDeployTask (env : Env) (name : String) : Option VTask :=
  match env.tasks.find? (fun task => isTaskEqual name env.deployFsPath task) with
  | some t => some t
  | none =>
    env.tasks.find? (fun task => isTaskEqual (taskNameWithoutSource name) env.deployFsPath task)

/-- `tryRunPreDeployTask` from the source. -/
def tryRunPreDeployTask (env : Env) : TryRunOutcome :=
  let taskName : Option String := env.config
  let preDeployTaskResult : IPreDeployTaskResult := ⟨taskName, none, false⟩
  if truthy taskName then
    let name : String := taskName.getD ""
    if env.scmType == some ScmType.LocalGit || env.scmType == some ScmType.GitHub then
      ⟨some preDeployTaskResult, false, none, some (ignoringPreDeployTaskMessage name)⟩
    else
      match findPreDeployTask env name with
      | some t => ⟨waitForPreDeployTask t env.deployFsPath env.events, true, some t, none⟩
      | none => ⟨some { preDeployTaskResult with failedToFindTask := true }, true, none, none⟩
  else
    ⟨some preDeployTaskResult, false, none, none⟩

/-- The errors `runPreDeployTask` can throw. -/
inductive DeployError
  | genericError (message : String)
  | userCancelled
deriving DecidableEq, Repr

/-- The title of the "Deploy Anyway" message item. -/
def deployAnywayTitle : String := "Deploy Anyway"

/-- The title of the "Open Settings" message item. -/
def openSettingsTitle : String := "Open Settings"

/-- Outcome of `handleFailedPreDeployTask`: the telemetry
`preDeployTaskResponse` value recorded, how many times the settings UI was
opened, and the error thrown (`none` = returned normally). -/
structure HandleFailedOutcome where
  response : String
  openSettingsCount : Nat
  error : Option DeployError
deriving DecidableEq, Repr

/-- `handleFailedPreDeployTask` from the source, as a function of the message
item the operator picked: `some true` = "Deploy Anyway", `some false` =
"Open Settings", `none` = dialog dismissed. -/
def handleFailedPreDeployTask : Option Bool → HandleFailedOutcome
  | some true => ⟨"deployAnyway", 0, none⟩
  | some false => ⟨"openSettings", 1, some DeployError.userCancelled⟩
  | none => ⟨"cancel", 0, some DeployError.userCancelled⟩

/-- Outcome of `runPreDeployTask`: the inner `tryRunPreDeployTask` outcome,
whether the modal failure dialog was shown and with which button titles, the
telemetry response recorded, the number of times the settings UI was opened,
and the error thrown (`none` = returned normally). -/
structure RunOutcome where
  tryOutcome : TryRunOutcome
  promptShown : Bool
  promptItems : List String
  response : Option String
  openSettingsCount : Nat
  error : Option DeployError
deriving DecidableEq, Repr

/-- `runPreDeployTask` from the source; `none` when the inner wait never
resolves (the promise stays pending forever). -/
def runPreDeployTask (env : Env) : Option RunOutcome :=
  let t := tryRunPreDeployTask env
  match t.result with
  | none => none
  | some preDeployResult =>
    if preDeployResult.failedToFindTask then
      some ⟨t, false, [], none, 0,
        some (DeployError.genericError
          (failedToFindTaskMessage env.extPrefix preDeployResult.taskName))⟩
    else
      match preDeployResult.exitCode with
      | some c =>
        if c != 0 then
          let h := handleFailedPreDeployTask env.promptChoice
          some ⟨t, true, [deployAnywayTitle, openSettingsTitle], some h.response,
            h.openSettingsCount, h.error⟩
        else
          some ⟨t, false, [], none, 0, none⟩
      | none => some ⟨t, false, [], none, 0, none⟩

/-- How many of the three terminal-classification conditions of the spec's
TaskResult invariant hold of a result: `taskName` undefined, `failedToFindTask`
true, `exitCode` set. -/
def classificationCount (r : IPreDeployTaskResult) : Nat :=
  (if r.taskName = none then 1 else 0) + (if r.failedToFindTask then 1 else 0) +
    (if r.exitCode = none then 0 else 1)

/-- A truthy `string | undefined` value is a nonempty string. -/
theorem truthy_iff (c : Option String) :
    truthy c = true ↔ ∃ s, c = some s ∧ s ≠ "" := by
  cases c with
  | none => simp [truthy]
  | some s => simp [truthy]

/-- Every result the wait resolves with carries the name of the task that
produced the signal and has `failedToFindTask = false`. -/
theorem waitForPreDeployTask_shape (pre : VTask) (path : FsPath) :
    ∀ (evs : List TaskProcessEndEvent) (r : IPreDeployTaskResult),
      waitForPreDeployTask pre path evs = some r →
      (∃ s, r.taskName = some s) ∧ r.failedToFindTask = false := by
  intro evs
  induction evs with
  | nil => intro r h; simp [waitForPreDeployTask] at h
  | cons e rest ih =>
    intro r h
    simp only [waitForPreDeployTask] at h
    split at h
    · simp only [Option.some.injEq] at h
      subst h
      exact ⟨⟨_, rfl⟩, rfl⟩
    · split at h
      · simp only [Option.some.injEq] at h
        subst h
        exact ⟨⟨_, rfl⟩, rfl⟩
      · exact ih r h

/-- Exhaustive case analysis of `tryRunPreDeployTask`: the no-config case, the
server-side-build skip case, the found-and-run case and the not-found case. -/
theorem tryRunPreDeployTask_cases (env : Env) :
    (truthy env.config = false ∧
      tryRunPreDeployTask env = ⟨some ⟨env.config, none, false⟩, false, none, none⟩) ∨
    (truthy env.config = true ∧
      (env.scmType == some ScmType.LocalGit || env.scmType == some ScmType.GitHub) = true ∧
      tryRunPreDeployTask env = ⟨some ⟨env.config, none, false⟩, false, none,
        some (ignoringPreDeployTaskMessage (env.config.getD ""))⟩) ∨
    (∃ t, truthy env.config = true ∧
      (env.scmType == some ScmType.LocalGit || env.scmType == some ScmType.GitHub) = false ∧
      findPreDeployTask env (env.config.getD "") = some t ∧
      tryRunPreDeployTask env =
        ⟨waitForPreDeployTask t env.deployFsPath env.events, true, some t, none⟩) ∨
    (truthy env.config = true ∧
      (env.scmType == some ScmType.LocalGit || env.scmType == some ScmType.GitHub) = false ∧
      findPreDeployTask env (env.config.getD "") = none ∧
      tryRunPreDeployTask env = ⟨some ⟨env.config, none, true⟩, true, none, none⟩) := by
  by_cases ht : truthy env.config = true
  · by_cases hs : (env.scmType == some ScmType.LocalGit ||
        env.scmType == some ScmType.GitHub) = true
    · exact Or.inr (Or.inl ⟨ht, hs, by simp [tryRunPreDeployTask, ht, hs]⟩)
    · cases hf : findPreDeployTask env (env.config.getD "") with
      | some t =>
        refine Or.inr (Or.inr (Or.inl ⟨t, ht, by simpa using hs, rfl, ?_⟩))
        simp [tryRunPreDeployTask, ht, hs, hf]
      | none =>
        refine Or.inr (Or.inr (Or.inr ⟨ht, by simpa using hs, rfl, ?_⟩))
        simp [tryRunPreDeployTask, ht, hs, hf]
  · exact Or.inl ⟨by simpa using ht, by simp [tryRunPreDeployTask, ht]⟩

/-- When the result is resolved, is not the not-found classification, and its
exit code is absent or zero, `runPreDeployTask` returns normally and silently:
no prompt, no settings UI, no error. -/
theorem runPreDeployTask_silent (env : Env) (r : IPreDeployTaskResult)
    (hr : (tryRunPreDeployTask env).result = some r)
    (hf : r.failedToFindTask = false)
    (he : r.exitCode = none ∨ r.exitCode = some 0) :
    runPreDeployTask env = some ⟨tryRunPreDeployTask env, false, [], none, 0, none⟩ := by
  rcases he with he | he <;> simp [runPreDeployTask, hr, hf, he]

/-- When `tryRunPreDeployTask` executes a task, its result is the value the
wait resolves with over the event stream. -/
theorem tryRunPreDeployTask_executed (env : Env) (pre : VTask)
    (h : (tryRunPreDeployTask env).executedTask = some pre) :
    (tryRunPreDeployTask env).result = waitForPreDeployTask pre env.deployFsPath env.events := by
  rcases tryRunPreDeployTask_cases env with ⟨_, he⟩ | ⟨_, _, he⟩ | ⟨t, _, _, _, he⟩ |
    ⟨_, _, _, he⟩ <;> rw [he] at h ⊢
  · simp at h
  · simp at h
  · simp only [Option.some.injEq] at h
    subst h
    rfl
  · simp at h

/-- A build task registered at scope `/proj`, used by concrete witnesses. -/
def buildTask : VTask := ⟨0, "build", some (TaskScopeVal.folder ⟨some ["proj"]⟩)⟩

/-- A second task with a different identity but the same scope. -/
def depTask : VTask := ⟨1, "dep", some (TaskScopeVal.folder ⟨some ["proj"]⟩)⟩

/-- An environment where the configured task is found and completes with exit
code 0. -/
def envSuccess : Env :=
  ⟨"appService", some "build", none, ["proj"], [buildTask], [⟨buildTask, some 0⟩], none⟩

/-- C5: for every deploy path and scm mode, if no pre-deploy task name is
configured, `tryRunPreDeployTask` returns `{taskName: undefined, exitCode:
undefined, failedToFindTask: false}` without fetching or executing any task. -/
theorem c5_unset_config_returns_immediately (env : Env) (h : env.config = none) :
    tryRunPreDeployTask env = ⟨some ⟨none, none, false⟩, false, none, none⟩ := by
  simp [tryRunPreDeployTask, h, truthy]

/-- Witness for C5 at a concrete environment. -/
theorem c5_witness :
    tryRunPreDeployTask ⟨"appService", none, some "LocalGit", ["home", "proj"], [buildTask], [], none⟩ =
      ⟨some ⟨none, none, false⟩, false, none, none⟩ :=
  c5_unset_config_returns_immediately
    ⟨"appService", none, some "LocalGit", ["home", "proj"], [buildTask], [], none⟩ rfl

/-- C9: with the empty string configured as the pre-deploy task name,
`tryRunPreDeployTask` behaves as if no task were configured — no fetch, no
execution, `failedToFindTask = false`, `exitCode` undefined — but the returned
`taskName` is the empty string rather than undefined. -/
theorem c9_empty_string_config (env : Env) (h : env.config = some "") :
    tryRunPreDeployTask env = ⟨some ⟨some "", none, false⟩, false, none, none⟩ := by
  simp [tryRunPreDeployTask, h, truthy]

/-- Witness for C9 at a concrete environment. -/
theorem c9_witness :
    tryRunPreDeployTask ⟨"appService", some "", none, ["proj"], [buildTask], [], none⟩ =
      ⟨some ⟨some "", none, false⟩, false, none, none⟩ :=
  c9_empty_string_config ⟨"appService", some "", none, ["proj"], [buildTask], [], none⟩ rfl

/-- C4: if the first completion event after launch is for a task of different
identity whose scope matches the deploy path and whose exit code is non-zero,
the wait resolves with that task's name and exit code, and no later event is
examined. -/
theorem c4_dependency_failure_resolves_wait (pre t : VTask) (deployFsPath : FsPath)
    (c : Int) (rest : List TaskProcessEndEvent)
    (hid : t ≠ pre) (hscope : isScopeEqual t deployFsPath = true) (hc : c ≠ 0) :
    waitForPreDeployTask pre deployFsPath (⟨t, some c⟩ :: rest) =
      some ⟨some t.name, some c, false⟩ := by
  simp [waitForPreDeployTask, hscope, hc]

/-- Witness for C4 at a concrete dependency task. -/
theorem c4_witness :
    waitForPreDeployTask buildTask ["proj"] [⟨depTask, some 2⟩] =
      some ⟨some "dep", some 2, false⟩ :=
  c4_dependency_failure_resolves_wait buildTask depTask ["proj"] 2 []
    (by decide) (by decide) (by decide)

/-- C8: when the result's exit code is 0 or undefined and the task was not
missing, `runPreDeployTask` returns normally and silently — no prompt, no
settings UI, no error; and when the launched task itself completes with exit
code 0, the wait resolves with exit code 0. -/
theorem c8_zero_or_undefined_exit_is_silent :
    (∀ (env : Env) (r : IPreDeployTaskResult),
      (tryRunPreDeployTask env).result = some r → r.failedToFindTask = false →
      (r.exitCode = none ∨ r.exitCode = some 0) →
      runPreDeployTask env = some ⟨tryRunPreDeployTask env, false, [], none, 0, none⟩) ∧
    (∀ (pre : VTask) (deployFsPath : FsPath) (rest : List TaskProcessEndEvent),
      waitForPreDeployTask pre deployFsPath (⟨pre, some 0⟩ :: rest) =
        some ⟨some pre.name, some 0, false⟩) := by
  refine ⟨runPreDeployTask_silent, ?_⟩
  intro pre deployFsPath rest
  simp [waitForPreDeployTask]

/-- Witness for C8 at a concrete environment whose launched task exits with 0. -/
theorem c8_witness :
    runPreDeployTask envSuccess = some ⟨tryRunPreDeployTask envSuccess, false, [], none, 0, none⟩ ∧
    waitForPreDeployTask buildTask ["proj"] [⟨buildTask, some 0⟩] =
      some ⟨some "build", some 0, false⟩ :=
  ⟨c8_zero_or_undefined_exit_is_silent.1 envSuccess ⟨some "build", some 0, false⟩
      (by decide) rfl (Or.inr rfl),
    c8_zero_or_undefined_exit_is_silent.2 buildTask ["proj"] []⟩

/-- C10: a completion event whose task scope matches the deploy path but whose
exit code is undefined resolves the wait through the failure branch with
`exitCode = none`, and `runPreDeployTask` then returns normally without showing
the failure prompt. -/
theorem c10_undefined_exit_code_is_silent (env : Env) (pre t : VTask)
    (rest : List TaskProcessEndEvent)
    (hexec : (tryRunPreDeployTask env).executedTask = some pre)
    (hev : env.events = ⟨t, none⟩ :: rest)
    (hscope : isScopeEqual t env.deployFsPath = true) :
    (tryRunPreDeployTask env).result = some ⟨some t.name, none, false⟩ ∧
    runPreDeployTask env = some ⟨tryRunPreDeployTask env, false, [], none, 0, none⟩ := by
  have hres := tryRunPreDeployTask_executed env pre hexec
  rw [hev] at hres
  have hwait : waitForPreDeployTask pre env.deployFsPath (⟨t, none⟩ :: rest) =
      some ⟨some t.name, none, false⟩ := by
    simp [waitForPreDeployTask, hscope]
  rw [hwait] at hres
  exact ⟨hres, runPreDeployTask_silent env _ hres rfl (Or.inl rfl)⟩

/-- An environment where the launched task's dependency ends with an undefined
exit code. -/
def envUndefinedExit : Env :=
  ⟨"appService", some "build", none, ["proj"], [buildTask], [⟨depTask, none⟩], none⟩

/-- Witness for C10 at a concrete environment. -/
theorem c10_witness :
    (tryRunPreDeployTask envUndefinedExit).result = some ⟨some "dep", none, false⟩ ∧
    runPreDeployTask envUndefinedExit =
      some ⟨tryRunPreDeployTask envUndefinedExit, false, [], none, 0, none⟩ :=
  c10_undefined_exit_code_is_silent envUndefinedExit buildTask depTask []
    (by decide) rfl (by decide)

/-- An environment with a configured task name and a server-side-build scm
type, exercising the skip branch. -/
def envSkip : Env := ⟨"appService", some "build", some "LocalGit", ["proj"], [], [], none⟩

/-- C1 counterexample: in the server-side-build skip case the returned result
is `{taskName: "build", exitCode: undefined, failedToFindTask: false}` — none
of the three classification conditions holds, so "exactly one" fails. -/
theorem c1_counterexample :
    (tryRunPreDeployTask envSkip).result = some ⟨some "build", none, false⟩ ∧
    classificationCount ⟨some "build", none, false⟩ = 0 := by decide

/-- C1 (amended): at most one of the three conditions {`taskName` undefined,
`failedToFindTask` true, `exitCode` set} holds of every result
`tryRunPreDeployTask` returns; in the server-side-build skip case none of them
holds. -/
theorem c1_classification_at_most_one (env : Env) (r : IPreDeployTaskResult)
    (h : (tryRunPreDeployTask env).result = some r) :
    classificationCount r ≤ 1 ∧
    (truthy env.config = true →
      (env.scmType = some ScmType.LocalGit ∨ env.scmType = some ScmType.GitHub) →
      classificationCount r = 0) := by
  rcases tryRunPreDeployTask_cases env with ⟨ht, he⟩ | ⟨ht, _, he⟩ | ⟨t, _, hs, _, he⟩ |
    ⟨ht, hs, _, he⟩
  · rw [he] at h
    simp only [Option.some.injEq] at h
    subst h
    constructor
    · cases hc : env.config <;> simp [classificationCount, hc]
    · intro h1 _
      rw [h1] at ht
      exact absurd ht (by simp)
  · rw [he] at h
    simp only [Option.some.injEq] at h
    subst h
    obtain ⟨s, hc, -⟩ := (truthy_iff env.config).mp ht
    constructor
    · simp [classificationCount, hc]
    · intro _ _
      simp [classificationCount, hc]
  · rw [he] at h
    simp only at h
    obtain ⟨⟨s, hn⟩, hf⟩ := waitForPreDeployTask_shape t env.deployFsPath env.events r h
    constructor
    · cases hre : r.exitCode <;> simp [classificationCount, hn, hf, hre]
    · intro _ h2
      rcases h2 with h2 | h2 <;> simp [h2] at hs
  · rw [he] at h
    simp only [Option.some.injEq] at h
    subst h
    obtain ⟨s, hc, -⟩ := (truthy_iff env.config).mp ht
    constructor
    · simp [classificationCount, hc]
    · intro _ h2
      rcases h2 with h2 | h2 <;> simp [h2] at hs

/-- Witness for the amended C1 at a concrete environment (the skip case). -/
theorem c1_witness :
    classificationCount ⟨some "build", none, false⟩ ≤ 1 ∧
    (truthy envSkip.config = true →
      (envSkip.scmType = some ScmType.LocalGit ∨ envSkip.scmType = some ScmType.GitHub) →
      classificationCount ⟨some "build", none, false⟩ = 0) :=
  c1_classification_at_most_one envSkip ⟨some "build", none, false⟩ (by decide)

/-- A task registered with a `"func: "` namespacing segment at scope `/proj`. -/
def prefixedTask : VTask :=
  ⟨2, "func: extensions install", some (TaskScopeVal.folder ⟨some ["proj"]⟩)⟩

/-- A task registered without a namespacing segment at scope `/proj`. -/
def plainTask : VTask :=
  ⟨3, "extensions install", some (TaskScopeVal.folder ⟨some ["proj"]⟩)⟩

/-- The scenario of C2 exactly as claimed: task registered as
"func: extensions install" at scope `/proj`, setting "extensions install",
deploy path `/proj/sub`. -/
def envC2 : Env :=
  ⟨"azureFunctions", some "extensions install", none, ["proj", "sub"], [prefixedTask], [], none⟩

/-- The C2 scenario with the direction of the prefix reversed: task registered
as "extensions install", setting "func: extensions install". -/
def envC2Amended : Env :=
  ⟨"azureFunctions", some "func: extensions install", none, ["proj", "sub"], [plainTask],
    [⟨plainTask, some 0⟩], none⟩

/-- C2 counterexample: with the task registered as "func: extensions install"
at scope `/proj` and the configured name "extensions install" for deploy path
`/proj/sub`, resolution FAILS — `failedToFindTask = true` and no task is
executed.  The source strips the `"<source>: "` segment from the configured
setting value, not from the registered task names, so the match never fires in
this direction. -/
theorem c2_counterexample :
    tryRunPreDeployTask envC2 =
      ⟨some ⟨some "extensions install", none, true⟩, true, none, none⟩ := by decide

/-- C2 (amended): with the direction reversed — task registered as
"extensions install" at scope `/proj`, configured name "func: extensions
install", deploy path `/proj/sub` — resolution succeeds via the
prefix-stripped match combined with the ancestor-path rule: the exact match
fails, the stripped name matches, and the task is executed. -/
theorem c2_amended_prefix_strip_resolves :
    (tryRunPreDeployTask envC2Amended).executedTask = some plainTask ∧
    (tryRunPreDeployTask envC2Amended).fetchedTasks = true ∧
    (tryRunPreDeployTask envC2Amended).result =
      some ⟨some "extensions install", some 0, false⟩ ∧
    taskNameWithoutSource "func: extensions install" = "extensions install" ∧
    isTaskEqual "func: extensions install" ["proj", "sub"] plainTask = false ∧
    isTaskEqual "extensions install" ["proj", "sub"] plainTask = true ∧
    isSubpath ["proj"] ["proj", "sub"] = true := by decide

/-- An environment with no configured task name and scm type LocalGit. -/
def envNoConfigLocalGit : Env := ⟨"appService", none, some "LocalGit", ["proj"], [], [], none⟩

/-- C6 counterexample: with scm type LocalGit but no configured task name,
NO informational log line is emitted (and nothing is fetched or executed), so
"the only side effect is one informational log line" fails for this
configuration. -/
theorem c6_counterexample :
    envNoConfigLocalGit.scmType = some ScmType.LocalGit ∧
    (tryRunPreDeployTask envNoConfigLocalGit).logLine = none ∧
    (tryRunPreDeployTask envNoConfigLocalGit).fetchedTasks = false ∧
    (tryRunPreDeployTask envNoConfigLocalGit).executedTask = none := by decide

/-- C6 (amended): for scm mode LocalGit or GitHub no task is ever fetched or
executed and the result has `exitCode` undefined and `failedToFindTask` false;
the informational log line is emitted exactly when a (truthy) task name is
configured, and is the only log output. -/
theorem c6_server_side_build_skips (env : Env)
    (hs : env.scmType = some ScmType.LocalGit ∨ env.scmType = some ScmType.GitHub) :
    (tryRunPreDeployTask env).fetchedTasks = false ∧
    (tryRunPreDeployTask env).executedTask = none ∧
    (∃ r, (tryRunPreDeployTask env).result = some r ∧ r.exitCode = none ∧
      r.failedToFindTask = false) ∧
    (tryRunPreDeployTask env).logLine =
      (if truthy env.config then some (ignoringPreDeployTaskMessage (env.config.getD ""))
       else none) := by
  have hsb : (env.scmType == some ScmType.LocalGit ||
      env.scmType == some ScmType.GitHub) = true := by
    rcases hs with h | h <;> simp [h]
  rcases tryRunPreDeployTask_cases env with ⟨ht, he⟩ | ⟨ht, _, he⟩ | ⟨t, _, hs2, _, _⟩ |
    ⟨_, hs2, _, _⟩
  · rw [he]
    exact ⟨rfl, rfl, ⟨⟨env.config, none, false⟩, rfl, rfl, rfl⟩, by simp [ht]⟩
  · rw [he]
    exact ⟨rfl, rfl, ⟨⟨env.config, none, false⟩, rfl, rfl, rfl⟩, by simp [ht]⟩
  · rw [hsb] at hs2
    exact absurd hs2 (by simp)
  · rw [hsb] at hs2
    exact absurd hs2 (by simp)

/-- Witness for the amended C6 at a concrete environment. -/
theorem c6_witness :
    (tryRunPreDeployTask envSkip).fetchedTasks = false ∧
    (tryRunPreDeployTask envSkip).executedTask = none ∧
    (∃ r, (tryRunPreDeployTask envSkip).result = some r ∧ r.exitCode = none ∧
      r.failedToFindTask = false) ∧
    (tryRunPreDeployTask envSkip).logLine =
      (if truthy envSkip.config then some (ignoringPreDeployTaskMessage (envSkip.config.getD ""))
       else none) :=
  c6_server_side_build_skips envSkip (Or.inl rfl)

/-- C3: when a nonempty task name is configured, the scm mode is not a
server-side-build mode, and no registered task matches either the exact
case-insensitive name or its prefix-stripped form at the deploy path,
`tryRunPreDeployTask` returns `failedToFindTask = true` and `runPreDeployTask`
throws an error naming the missing task and the `<prefix>.preDeployTask`
configuration key. -/
theorem c3_not_found_raises (env : Env) (n : String)
    (hc : env.config = some n) (hn : n ≠ "")
    (hs1 : env.scmType ≠ some ScmType.LocalGit) (hs2 : env.scmType ≠ some ScmType.GitHub)
    (hmatch : ∀ t ∈ env.tasks, isTaskEqual n env.deployFsPath t = false ∧
      isTaskEqual (taskNameWithoutSource n) env.deployFsPath t = false) :
    (tryRunPreDeployTask env).result = some ⟨some n, none, true⟩ ∧
    runPreDeployTask env = some ⟨tryRunPreDeployTask env, false, [], none, 0,
      some (DeployError.genericError
        ("Failed to find pre-deploy task \"" ++ n ++
          "\". Modify your tasks or the setting \"" ++ env.extPrefix ++
          ".preDeployTask\"."))⟩ := by
  have ht : truthy env.config = true := by simp [hc, truthy, hn]
  have hsb : (env.scmType == some ScmType.LocalGit ||
      env.scmType == some ScmType.GitHub) = false := by
    simp [hs1, hs2]
  have hfind : findPreDeployTask env (env.config.getD "") = none := by
    rw [hc, Option.getD_some]
    unfold findPreDeployTask
    have h1 : env.tasks.find? (fun task => isTaskEqual n env.deployFsPath task) = none := by
      rw [List.find?_eq_none]
      intro t htl
      simp [(hmatch t htl).1]
    have h2 : env.tasks.find?
        (fun task => isTaskEqual (taskNameWithoutSource n) env.deployFsPath task) = none := by
      rw [List.find?_eq_none]
      intro t htl
      simp [(hmatch t htl).2]
    rw [h1, h2]
  have htry : tryRunPreDeployTask env = ⟨some ⟨env.config, none, true⟩, true, none, none⟩ := by
    rcases tryRunPreDeployTask_cases env with ⟨h1, _⟩ | ⟨_, h2, _⟩ | ⟨t, _, _, hf, _⟩ |
      ⟨_, _, _, he⟩
    · rw [ht] at h1
      exact absurd h1 (by simp)
    · rw [hsb] at h2
      exact absurd h2 (by simp)
    · rw [hfind] at hf
      exact absurd hf (by simp)
    · exact he
  have hres : (tryRunPreDeployTask env).result = some ⟨some n, none, true⟩ := by
    rw [htry]
    simp [hc]
  refine ⟨hres, ?_⟩
  simp [runPreDeployTask, hres, failedToFindTaskMessage, interpolate]

/-- An environment with a configured name, no server-side build, and no
registered tasks at all. -/
def envNotFound : Env := ⟨"appService", some "build", none, ["proj"], [], [], none⟩

/-- Witness for C3 at a concrete environment with an empty task registry. -/
theorem c3_witness :
    (tryRunPreDeployTask envNotFound).result = some ⟨some "build", none, true⟩ ∧
    runPreDeployTask envNotFound = some ⟨tryRunPreDeployTask envNotFound, false, [], none, 0,
      some (DeployError.genericError
        ("Failed to find pre-deploy task \"" ++ "build" ++
          "\". Modify your tasks or the setting \"" ++ envNotFound.extPrefix ++
          ".preDeployTask\"."))⟩ :=
  c3_not_found_raises envNotFound "build" rfl (by decide) (by decide) (by decide)
    (by intro t htl; cases htl)

/-- C7: when the result has a defined non-zero exit code, the modal failure
prompt is shown with exactly the items "Deploy Anyway" and "Open Settings";
"Deploy Anyway" (`some true`) records "deployAnyway" and returns normally;
"Open Settings" (`some false`) records "openSettings", opens the settings UI
exactly once and throws a user-cancellation error; dismissing the dialog
(`none`) records "cancel" and throws a user-cancellation error. -/
theorem c7_failure_prompt (env : Env) (r : IPreDeployTaskResult) (c : Int)
    (hr : (tryRunPreDeployTask env).result = some r)
    (hf : r.failedToFindTask = false) (he : r.exitCode = some c) (hc : c ≠ 0) :
    ∃ o, runPreDeployTask env = some o ∧ o.promptShown = true ∧
      o.promptItems = [deployAnywayTitle, openSettingsTitle] ∧
      (env.promptChoice = some true →
        o.response = some "deployAnyway" ∧ o.openSettingsCount = 0 ∧ o.error = none) ∧
      (env.promptChoice = some false →
        o.response = some "openSettings" ∧ o.openSettingsCount = 1 ∧
        o.error = some DeployError.userCancelled) ∧
      (env.promptChoice = none →
        o.response = some "cancel" ∧ o.openSettingsCount = 0 ∧
        o.error = some DeployError.userCancelled) := by
  refine ⟨⟨tryRunPreDeployTask env, true, [deployAnywayTitle, openSettingsTitle],
    some (handleFailedPreDeployTask env.promptChoice).response,
    (handleFailedPreDeployTask env.promptChoice).openSettingsCount,
    (handleFailedPreDeployTask env.promptChoice).error⟩, ?_, rfl, rfl, ?_, ?_, ?_⟩
  · simp [runPreDeployTask, hr, hf, he, hc]
  · intro hch
    simp [hch, handleFailedPreDeployTask]
  · intro hch
    simp [hch, handleFailedPreDeployTask]
  · intro hch
    simp [hch, handleFailedPreDeployTask]

/-- An environment whose launched task fails with exit code 1 and where the
operator picks "Deploy Anyway". -/
def envPrompt : Env :=
  ⟨"appService", some "build", none, ["proj"], [buildTask], [⟨buildTask, some 1⟩], some true⟩

/-- Witness for C7 at a concrete environment. -/
theorem c7_witness :
    ∃ o, runPreDeployTask envPrompt = some o ∧ o.promptShown = true ∧
      o.promptItems = [deployAnywayTitle, openSettingsTitle] ∧
      (envPrompt.promptChoice = some true →
        o.response = some "deployAnyway" ∧ o.openSettingsCount = 0 ∧ o.error = none) ∧
      (envPrompt.promptChoice = some false →
        o.response = some "openSettings" ∧ o.openSettingsCount = 1 ∧
        o.error = some DeployError.userCancelled) ∧
      (envPrompt.promptChoice = none →
        o.response = some "cancel" ∧ o.openSettingsCount = 0 ∧
        o.error = some DeployError.userCancelled) :=
  c7_failure_prompt envPrompt ⟨some "build", some 1, false⟩ 1 (by decide) rfl rfl (by decide)
